import Mathlib

/-!
# Verification of the YouTube channel-discovery pipeline (`src/main.py`)

Shallow embedding of the pipeline in `main.py`:

* `search_new_videos` (lines 83-129): one `search.list` call per query; collects
  the `channelId` of every result item (skipping falsy ids); any `HttpError` or
  other exception makes the call contribute the empty list.
* `collect_new_channels` (lines 185-218): accumulates a set of channel ids over
  all queries, then enriches the id list in slices of 50 via
  `get_channel_details`.
* `get_channel_details` (lines 132-182): returns `[]` without any remote call
  for an empty id list; otherwise issues one `channels.list` call and extracts
  per-item fields with `dict.get` defaults (`""` for snippet text fields, `0`
  for statistics fields).
* `filter_and_save_channels` (lines 221-258): parses the timestamp columns with
  `pd.to_datetime(errors="coerce")`, computes the age in fractional days,
  keeps rows with `age <= max_age_days`, coerces the three count columns with
  `pd.to_numeric(errors="coerce").fillna(0).astype("int64")`, and either writes
  `new_youtube_channels_<YYYY-MM-DD>.csv` or returns `""` with no write.
* `main` (lines 261-291): fails with `RuntimeError` when the
  `YOUTUBE_API_KEY` environment variable is unset or empty, before any remote
  call.

External library behaviour (the pandas datetime parser and numeric parser, and
the remote API's responses) is modelled by explicit parameters: a datetime
parse function `String → Option ℚ` (`none` = `NaT`), a numeric parse function
`String → Option Int` (`none` = `NaN` after coercion), and per-call outcome
values describing what the remote service returned.  Timestamps are rational
numbers of seconds.
-/

namespace YTQuery

/-- One item of a `search.list` response, as consumed on line 120 of
`main.py`: only `item.get("snippet", {}).get("channelId")` is read.
`none` models a missing `snippet`/`channelId` key. -/
structure SearchItem where
  channelId : Option String
deriving DecidableEq

/-- Outcome of one remote `search.list` call: either a response with its item
list, or a raised `HttpError`/exception. -/
inductive SearchOutcome where
  | ok (items : List SearchItem)
  | err
deriving DecidableEq

/-- `search_new_videos` (lines 105-129): on success, collect each item's
`channelId`, skipping items whose id is missing or falsy (Python's
`if channel_id:` also skips the empty string); on any exception the
function logs and returns the empty list. -/
def search_new_videos (outcome : SearchOutcome) : List String :=
  match outcome with
  | .ok items =>
      items.filterMap (fun it =>
        match it.channelId with
        | some cid => if cid = "" then none else some cid
        | none => none)
  | .err => []

/-- Adding one id to the accumulated Python `set`.  A `set` has pure
membership semantics and no specified iteration order; we model it as a
duplicate-free list in first-seen order, a deterministic refinement of the
unspecified order in which `list(all_channel_ids)` (line 212) enumerates it. -/
def setAdd (acc : List String) (cid : String) : List String :=
  if cid ∈ acc then acc else acc ++ [cid]

/-- `all_channel_ids.update(channel_ids)` (line 207). -/
def setUpdate (acc : List String) (new : List String) : List String :=
  new.foldl setAdd acc

/-- The accumulating id set of `collect_new_channels` (lines 203-207):
`all_channel_ids = set()` followed by `all_channel_ids.update(channel_ids)`
for each query's result list. -/
def collectChannelIds (outs : List SearchOutcome) : List String :=
  outs.foldl (fun a o => setUpdate a (search_new_videos o)) []

theorem mem_setAdd (acc : List String) (c x : String) :
    x ∈ setAdd acc c ↔ x ∈ acc ∨ x = c := by
  unfold setAdd
  by_cases h : c ∈ acc
  · simp only [if_pos h]
    constructor
    · exact Or.inl
    · rintro (hx | rfl)
      · exact hx
      · exact h
  · simp [if_neg h]

theorem nodup_setAdd (acc : List String) (c : String) (h : acc.Nodup) :
    (setAdd acc c).Nodup := by
  unfold setAdd
  by_cases hc : c ∈ acc
  · simpa [if_pos hc]
  · rw [if_neg hc]
    simpa [List.nodup_append] using ⟨h, fun hx => hc hx⟩

theorem length_setAdd_le (acc : List String) (c : String) :
    (setAdd acc c).length ≤ acc.length + 1 := by
  unfold setAdd
  by_cases hc : c ∈ acc
  · simp [if_pos hc]
  · simp [if_neg hc]

theorem length_setAdd_eq_iff (acc : List String) (c : String) :
    (setAdd acc c).length = acc.length + 1 ↔ c ∉ acc := by
  unfold setAdd
  by_cases hc : c ∈ acc
  · simp [if_pos hc, hc]
  · simp [if_neg hc, hc]

theorem mem_setUpdate (acc new : List String) (x : String) :
    x ∈ setUpdate acc new ↔ x ∈ acc ∨ x ∈ new := by
  induction new generalizing acc with
  | nil => simp [setUpdate]
  | cons c rest ih =>
      show x ∈ setUpdate (setAdd acc c) rest ↔ _
      rw [ih, mem_setAdd]
      simp only [List.mem_cons]
      tauto

theorem nodup_setUpdate (acc new : List String) (h : acc.Nodup) :
    (setUpdate acc new).Nodup := by
  induction new generalizing acc with
  | nil => exact h
  | cons c rest ih => exact ih (setAdd acc c) (nodup_setAdd acc c h)

theorem length_setUpdate_le (acc new : List String) :
    (setUpdate acc new).length ≤ acc.length + new.length := by
  induction new generalizing acc with
  | nil => simp [setUpdate]
  | cons c rest ih =>
      calc (setUpdate (setAdd acc c) rest).length
          ≤ (setAdd acc c).length + rest.length := ih (setAdd acc c)
        _ ≤ acc.length + 1 + rest.length := by
            exact Nat.add_le_add_right (length_setAdd_le acc c) _
        _ = acc.length + (c :: rest).length := by simp; omega

theorem length_setUpdate_eq_iff (acc new : List String) :
    (setUpdate acc new).length = acc.length + new.length ↔
      new.Nodup ∧ ∀ x ∈ new, x ∉ acc := by
  induction new generalizing acc with
  | nil => simp [setUpdate]
  | cons c rest ih =>
      have step : setUpdate acc (c :: rest) = setUpdate (setAdd acc c) rest := rfl
      rw [step]
      constructor
      · intro heq
        have h₁ : (setUpdate (setAdd acc c) rest).length ≤
            (setAdd acc c).length + rest.length := length_setUpdate_le _ _
        have h₂ : (setAdd acc c).length ≤ acc.length + 1 := length_setAdd_le acc c
        have hAddEq : (setAdd acc c).length = acc.length + 1 := by
          simp only [List.length_cons] at heq
          omega
        have hRestEq : (setUpdate (setAdd acc c) rest).length =
            (setAdd acc c).length + rest.length := by
          simp only [List.length_cons] at heq
          omega
        have hcnot : c ∉ acc := (length_setAdd_eq_iff acc c).mp hAddEq
        obtain ⟨hnd, hdisj⟩ := (ih (setAdd acc c)).mp hRestEq
        refine ⟨List.nodup_cons.mpr ⟨fun hcr => ?_, hnd⟩, ?_⟩
        · exact (hdisj c hcr) ((mem_setAdd acc c c).mpr (Or.inr rfl))
        · intro x hx
          rcases List.mem_cons.mp hx with rfl | hx
          · exact hcnot
          · intro hxa
            exact (hdisj x hx) ((mem_setAdd acc c x).mpr (Or.inl hxa))
      · rintro ⟨hnd, hdisj⟩
        obtain ⟨hcr, hndr⟩ := List.nodup_cons.mp hnd
        have hcnot : c ∉ acc := hdisj c (List.mem_cons_self c rest)
        have hAddEq : (setAdd acc c).length = acc.length + 1 :=
          (length_setAdd_eq_iff acc c).mpr hcnot
        have hRestEq : (setUpdate (setAdd acc c) rest).length =
            (setAdd acc c).length + rest.length := by
          refine (ih (setAdd acc c)).mpr ⟨hndr, fun x hx hxadd => ?_⟩
          rcases (mem_setAdd acc c x).mp hxadd with hxa | rfl
          · exact hdisj x (List.mem_cons_of_mem c hx) hxa
          · exact hcr hx
        rw [hRestEq, hAddEq, List.length_cons]
        omega

theorem foldl_setUpdate_le (Ls : List (List String)) (a : List String) :
    (Ls.foldl setUpdate a).length ≤ a.length + (Ls.map List.length).sum := by
  induction Ls generalizing a with
  | nil => simp
  | cons L rest ih =>
      calc (rest.foldl setUpdate (setUpdate a L)).length
          ≤ (setUpdate a L).length + (rest.map List.length).sum := ih (setUpdate a L)
        _ ≤ a.length + L.length + (rest.map List.length).sum := by
            exact Nat.add_le_add_right (length_setUpdate_le a L) _
        _ = a.length + ((L :: rest).map List.length).sum := by simp; omega

theorem foldl_setUpdate_eq_iff (Ls : List (List String)) (a : List String)
    (ha : a.Nodup) :
    (Ls.foldl setUpdate a).length = a.length + (Ls.map List.length).sum ↔
      Ls.flatten.Nodup ∧ ∀ x ∈ Ls.flatten, x ∉ a := by
  induction Ls generalizing a with
  | nil => simp
  | cons L rest ih =>
      have step : (L :: rest).foldl setUpdate a = rest.foldl setUpdate (setUpdate a L) := rfl
      rw [step]
      have ha' : (setUpdate a L).Nodup := nodup_setUpdate a L ha
      constructor
      · intro heq
        have h₁ : (rest.foldl setUpdate (setUpdate a L)).length ≤
            (setUpdate a L).length + (rest.map List.length).sum := foldl_setUpdate_le _ _
        have h₂ : (setUpdate a L).length ≤ a.length + L.length := length_setUpdate_le a L
        have hInner : (setUpdate a L).length = a.length + L.length := by
          simp only [List.map_cons, List.sum_cons] at heq
          omega
        have hOuter : (rest.foldl setUpdate (setUpdate a L)).length =
            (setUpdate a L).length + (rest.map List.length).sum := by
          simp only [List.map_cons, List.sum_cons] at heq
          omega
        obtain ⟨hLnd, hLa⟩ := (length_setUpdate_eq_iff a L).mp hInner
        obtain ⟨hRnd, hRa⟩ := (ih (setUpdate a L) ha').mp hOuter
        have hdisj : ∀ x ∈ rest.flatten, x ∉ L := fun x hx hxL =>
          hRa x hx ((mem_setUpdate a L x).mpr (Or.inr hxL))
        refine ⟨?_, ?_⟩
        · rw [List.flatten_cons, List.nodup_append]
          exact ⟨hLnd, hRnd, fun x hxL hxR => hdisj x hxR hxL⟩
        · intro x hx
          rw [List.flatten_cons, List.mem_append] at hx
          rcases hx with hx | hx
          · exact hLa x hx
          · intro hxa
            exact hRa x hx ((mem_setUpdate a L x).mpr (Or.inl hxa))
      · rintro ⟨hnd, hnota⟩
        rw [List.flatten_cons, List.nodup_append] at hnd
        obtain ⟨hLnd, hRnd, hLRdisj⟩ := hnd
        have hmem : ∀ x, x ∈ List.flatten (L :: rest) ↔ x ∈ L ∨ x ∈ rest.flatten := by
          intro x; rw [List.flatten_cons, List.mem_append]
        have hInner : (setUpdate a L).length = a.length + L.length :=
          (length_setUpdate_eq_iff a L).mpr
            ⟨hLnd, fun x hx => hnota x ((hmem x).mpr (Or.inl hx))⟩
        have hOuter : (rest.foldl setUpdate (setUpdate a L)).length =
            (setUpdate a L).length + (rest.map List.length).sum := by
          refine (ih (setUpdate a L) ha').mpr ⟨hRnd, fun x hx hxup => ?_⟩
          rcases (mem_setUpdate a L x).mp hxup with hxa | hxL
          · exact hnota x ((hmem x).mpr (Or.inr hx)) hxa
          · exact hLRdisj hxL hx
        rw [hOuter, hInner]
        simp only [List.map_cons, List.sum_cons]
        omega

/-- Fuel-driven worker for the batching loop; the fuel is always instantiated
with the list length, which bounds the number of slices. -/
def chunksGo {α : Type} (fuel : Nat) (l : List α) : List (List α) :=
  match fuel, l with
  | 0, _ => []
  | _ + 1, [] => []
  | fuel + 1, a :: rest => ((a :: rest).take 50) :: chunksGo fuel ((a :: rest).drop 50)

/-- The batch slicing of `collect_new_channels` (lines 213-214):
`for i in range(0, len(channel_id_list), 50): batch = channel_id_list[i:i + 50]`. -/
def chunk50 {α : Type} (l : List α) : List (List α) :=
  chunksGo l.length l

theorem chunksGo_nil {α : Type} (fuel : Nat) : chunksGo (α := α) fuel [] = [] := by
  cases fuel <;> rfl

theorem chunksGo_congr {α : Type} :
    ∀ (f₁ f₂ : Nat) (l : List α), l.length ≤ f₁ → l.length ≤ f₂ →
      chunksGo f₁ l = chunksGo f₂ l := by
  intro f₁
  induction f₁ with
  | zero =>
      intro f₂ l h₁ _
      have hl : l = [] := List.length_eq_zero.mp (Nat.le_zero.mp h₁)
      subst hl
      rw [chunksGo_nil, chunksGo_nil]
  | succ f ih =>
      intro f₂ l h₁ h₂
      cases l with
      | nil => rw [chunksGo_nil, chunksGo_nil]
      | cons a rest =>
          cases f₂ with
          | zero => exact absurd h₂ (by simp)
          | succ f₂' =>
              show _ :: chunksGo f _ = _ :: chunksGo f₂' _
              have hd : ((a :: rest).drop 50).length ≤ rest.length := by
                simp only [List.length_drop, List.length_cons]
                omega
              have h₁' : ((a :: rest).drop 50).length ≤ f := by
                have : rest.length ≤ f := by simpa using h₁
                omega
              have h₂' : ((a :: rest).drop 50).length ≤ f₂' := by
                have : rest.length ≤ f₂' := by simpa using h₂
                omega
              rw [ih f₂' _ h₁' h₂']

theorem chunk50_nil {α : Type} : chunk50 (α := α) [] = [] := rfl

theorem chunk50_cons {α : Type} (l : List α) (h : l ≠ []) :
    chunk50 l = l.take 50 :: chunk50 (l.drop 50) := by
  cases l with
  | nil => exact absurd rfl h
  | cons a rest =>
      show ((a :: rest).take 50) :: chunksGo rest.length ((a :: rest).drop 50) = _
      have hd : ((a :: rest).drop 50).length ≤ rest.length := by
        simp only [List.length_drop, List.length_cons]
        omega
      rw [chunksGo_congr rest.length ((a :: rest).drop 50).length _ hd le_rfl]
      rfl

/-- The batches concatenate back to the original id list. -/
theorem chunk50_flatten {α : Type} (l : List α) : (chunk50 l).flatten = l := by
  rcases eq_or_ne l [] with h | h
  · subst h; rfl
  · rw [chunk50_cons l h, List.flatten_cons, chunk50_flatten (l.drop 50),
      List.take_append_drop]
termination_by l.length
decreasing_by
  simp only [List.length_drop]
  exact Nat.sub_lt (List.length_pos.mpr h) (by omega)

/-- Every batch is nonempty and has at most 50 elements. -/
theorem chunk50_mem {α : Type} (l : List α) (b : List α) (hb : b ∈ chunk50 l) :
    b.length ≤ 50 ∧ b ≠ [] := by
  rcases eq_or_ne l [] with h | h
  · subst h; simp [chunk50_nil] at hb
  · rw [chunk50_cons l h] at hb
    rcases List.mem_cons.mp hb with hb | hb
    · subst hb
      constructor
      · simp
      · simp only [ne_eq, List.take_eq_nil_iff]
        push_neg
        exact ⟨by omega, h⟩
    · exact chunk50_mem (l.drop 50) b hb
termination_by l.length
decreasing_by
  simp only [List.length_drop]
  exact Nat.sub_lt (List.length_pos.mpr h) (by omega)

/-- The number of batches is `⌈n / 50⌉`. -/
theorem chunk50_length {α : Type} (l : List α) :
    (chunk50 l).length = (l.length + 49) / 50 := by
  rcases eq_or_ne l [] with h | h
  · subst h; rw [chunk50_nil]; simp
  · rw [chunk50_cons l h, List.length_cons, chunk50_length (l.drop 50),
      List.length_drop]
    have hpos : 0 < l.length := List.length_pos.mpr h
    omega
termination_by l.length
decreasing_by
  simp only [List.length_drop]
  exact Nat.sub_lt (List.length_pos.mpr h) (by omega)

/-- One item of a `channels.list` response as consumed on lines 164-177 of
`main.py`.  Each field is the optional raw value at the corresponding key
path (`none` models a missing key); statistics values are kept as raw strings,
which is how the YouTube API encodes counts. -/
structure RawItem where
  id : Option String
  title : Option String
  publishedAt : Option String
  subscriberCount : Option String
  videoCount : Option String
  viewCount : Option String
deriving DecidableEq

/-- Value of a statistics field after `stats.get(key, 0)` (lines 172-174):
the Python int default `0` when the key is missing, otherwise the raw
response value. -/
inductive StatVal where
  | intVal (n : Int)
  | strVal (s : String)
deriving DecidableEq

/-- `stats.get(key, 0)`. -/
def getStat (v : Option String) : StatVal :=
  match v with
  | none => .intVal 0
  | some s => .strVal s

/-- The dictionary built on lines 167-177 of `main.py`, one per response
item. -/
structure ChannelData where
  channel_id : Option String
  channel_title : String
  published_at : String
  subscriber_count : StatVal
  video_count : StatVal
  view_count : StatVal
  data_retrieved_at : String
deriving DecidableEq

/-- Field extraction for one response item (lines 164-177): snippet text
fields default to `""`, statistics fields to `0`; the retrieval timestamp is
the wall-clock string captured at extraction time. -/
def extractItem (retrievedAt : String) (it : RawItem) : ChannelData :=
  { channel_id := it.id
    channel_title := it.title.getD ""
    published_at := it.publishedAt.getD ""
    subscriber_count := getStat it.subscriberCount
    video_count := getStat it.videoCount
    view_count := getStat it.viewCount
    data_retrieved_at := retrievedAt }

/-- Outcome of one remote `channels.list` call. -/
inductive DetailsOutcome where
  | ok (items : List RawItem)
  | err
deriving DecidableEq

/-- `get_channel_details` (lines 132-182).  Returns the extracted records and
the number of remote `channels.list` calls issued: zero for an empty id list
(the early return on lines 153-154 precedes the request), one otherwise —
also when the call raises, in which case the record list is empty
(lines 178-182). -/
def get_channel_details (retrievedAt : String) (channel_ids : List String)
    (outcome : DetailsOutcome) : List ChannelData × Nat :=
  match channel_ids with
  | [] => ([], 0)
  | _ :: _ =>
      match outcome with
      | .ok items => (items.map (extractItem retrievedAt), 1)
      | .err => ([], 1)

/-- The enrichment loop of `collect_new_channels` (lines 210-218): slice the
deduplicated id list into batches of 50 and concatenate the records returned
for each batch.  `detOuts i` is what the remote service returned for the
`i`-th batch. -/
def collect_new_channels (retrievedAt : String) (searchOuts : List SearchOutcome)
    (detOuts : Nat → DetailsOutcome) : List ChannelData :=
  let channel_id_list := collectChannelIds searchOuts
  ((chunk50 channel_id_list).enum.map
    (fun p => (get_channel_details retrievedAt p.2 (detOuts p.1)).1)).flatten

/-- Number of `channels.list` calls issued by the enrichment loop over a given
id list. -/
def enrichment_call_count (retrievedAt : String) (ids : List String)
    (detOuts : Nat → DetailsOutcome) : Nat :=
  ((chunk50 ids).enum.map
    (fun p => (get_channel_details retrievedAt p.2 (detOuts p.1)).2)).sum

/-- The numeric coercion applied to the three count columns on lines 249-250:
`pd.to_numeric(col, errors="coerce").fillna(0).astype("int64")`.  `toNum`
models the pandas numeric parser; `none` is `NaN`, which `fillna(0)` turns
into `0`.  A value that is already the int `0` (the `dict.get` default)
passes through unchanged. -/
def toNumericCoerce (toNum : String → Option Int) : StatVal → Int
  | .intVal n => n
  | .strVal s => (toNum s).getD 0

/-- `channel_age_days` (line 245): the difference of the two parsed timestamp
columns in seconds divided by `24 * 3600`.  A `NaT` (`none`) operand makes the
age `NaN` (`none`). -/
def ageDays (pdt rdt : Option ℚ) : Option ℚ :=
  match pdt, rdt with
  | some p, some r => some ((r - p) / (24 * 3600))
  | _, _ => none

/-- The row predicate of line 247, `df["channel_age_days"] <= max_age_days`.
A `NaN` age compares as `False` in pandas, so such rows are dropped. -/
def keepRecord (parseDt : String → Option ℚ) (max_age_days : ℚ)
    (r : ChannelData) : Bool :=
  match ageDays (parseDt r.published_at) (parseDt r.data_retrieved_at) with
  | some a => decide (a ≤ max_age_days)
  | none => false

/-- `df_new` (line 247): the records surviving the age filter. -/
def survivors (parseDt : String → Option ℚ) (max_age_days : ℚ)
    (all : List ChannelData) : List ChannelData :=
  all.filter (keepRecord parseDt max_age_days)

/-- One row of the DataFrame as written to CSV: the seven dictionary fields
in insertion order, plus the three columns added on lines 242-245. -/
structure Row where
  channel_id : Option String
  channel_title : String
  published_at : String
  subscriber_count : Int
  video_count : Int
  view_count : Int
  data_retrieved_at : String
  published_at_dt : Option ℚ
  data_retrieved_at_dt : Option ℚ
  channel_age_days : Option ℚ
deriving DecidableEq

/-- Builds a written row from a surviving record: parsed datetime columns,
computed age and coerced integer counts. -/
def mkRow (parseDt : String → Option ℚ) (toNum : String → Option Int)
    (r : ChannelData) : Row :=
  { channel_id := r.channel_id
    channel_title := r.channel_title
    published_at := r.published_at
    subscriber_count := toNumericCoerce toNum r.subscriber_count
    video_count := toNumericCoerce toNum r.video_count
    view_count := toNumericCoerce toNum r.view_count
    data_retrieved_at := r.data_retrieved_at
    published_at_dt := parseDt r.published_at
    data_retrieved_at_dt := parseDt r.data_retrieved_at
    channel_age_days := ageDays (parseDt r.published_at) (parseDt r.data_retrieved_at) }

/-- The column header of the written CSV: `pd.DataFrame` of a list of
uniform dictionaries keeps the dictionary key order, and each column
assignment on lines 242-245 appends one column. -/
def csvColumns : List String :=
  ["channel_id", "channel_title", "published_at", "subscriber_count",
   "video_count", "view_count", "data_retrieved_at",
   "published_at_dt", "data_retrieved_at_dt", "channel_age_days"]

/-- Observable result of `filter_and_save_channels`: the written file (name,
column header and rows), or no write; the returned string; and the printed
notice when nothing is written. -/
structure SaveOutput where
  written : Option (String × List String × List Row)
  returned : String
  notice : Option String
deriving DecidableEq

/-- `filter_and_save_channels` (lines 221-258).  `parseDt` models
`pd.to_datetime(·, errors="coerce")` (`none` = `NaT`), `toNum` models
`pd.to_numeric(·, errors="coerce")` restricted to one cell, and `dateStr`
is `datetime.utcnow().strftime("%Y-%m-%d")` of line 254. -/
def filter_and_save_channels (parseDt : String → Option ℚ)
    (toNum : String → Option Int) (dateStr : String)
    (all_channel_data : List ChannelData) (max_age_days : ℚ) : SaveOutput :=
  match all_channel_data with
  | [] =>
      { written := none
        returned := ""
        notice := some "No channel data collected; nothing to save." }
  | _ :: _ =>
      match survivors parseDt max_age_days all_channel_data with
      | [] =>
          { written := none
            returned := ""
            notice := some "No channels younger than the age threshold found." }
      | r :: rs =>
          let filename := "new_youtube_channels_" ++ dateStr ++ ".csv"
          { written := some (filename, csvColumns, (r :: rs).map (mkRow parseDt toNum))
            returned := filename
            notice := none }

/-- The whole pipeline below the orchestrator: discovery, enrichment, filter
and save (lines 290-291). -/
def run_pipeline (parseDt : String → Option ℚ) (toNum : String → Option Int)
    (retrievedAt dateStr : String) (searchOuts : List SearchOutcome)
    (detOuts : Nat → DetailsOutcome) (max_age_days : ℚ) : SaveOutput :=
  filter_and_save_channels parseDt toNum dateStr
    (collect_new_channels retrievedAt searchOuts detOuts) max_age_days

/-- Observable outcome of `main` (lines 261-291): the number of remote calls
issued, the pipeline output when it ran, and the fatal configuration error
when it did not. -/
structure MainOutcome where
  remoteCalls : Nat
  output : Option SaveOutput
  configError : Option String
deriving DecidableEq

/-- Total number of remote calls of one run: one `search.list` call per
query (also for queries whose call fails) plus the `channels.list` calls of
the enrichment loop. -/
def total_remote_calls (retrievedAt : String) (searchOuts : List SearchOutcome)
    (detOuts : Nat → DetailsOutcome) : Nat :=
  searchOuts.length + enrichment_call_count retrievedAt (collectChannelIds searchOuts) detOuts

/-- `main` (lines 261-291).  `apiKey` is `os.getenv("YOUTUBE_API_KEY")`
(`none` when the variable is unset).  Python's `if not api_key:` also treats
the empty string as absent, and the `RuntimeError` is raised before the
client is built and before any remote call. -/
def main_run (apiKey : Option String) (parseDt : String → Option ℚ)
    (toNum : String → Option Int) (retrievedAt dateStr : String)
    (searchOuts : List SearchOutcome) (detOuts : Nat → DetailsOutcome)
    (max_age_days : ℚ) : MainOutcome :=
  match apiKey with
  | none =>
      { remoteCalls := 0
        output := none
        configError := some "YOUTUBE_API_KEY environment variable not set." }
  | some k =>
      if k = "" then
        { remoteCalls := 0
          output := none
          configError := some "YOUTUBE_API_KEY environment variable not set." }
      else
        { remoteCalls := total_remote_calls retrievedAt searchOuts detOuts
          output := some (run_pipeline parseDt toNum retrievedAt dateStr
            searchOuts detOuts max_age_days)
          configError := none }

theorem get_channel_details_calls (retrievedAt : String) (b : List String)
    (outcome : DetailsOutcome) (hb : b ≠ []) :
    (get_channel_details retrievedAt b outcome).2 = 1 := by
  cases b with
  | nil => exact absurd rfl hb
  | cons c cs => cases outcome <;> rfl

theorem enumFrom_calls_sum (retrievedAt : String) (detOuts : Nat → DetailsOutcome) :
    ∀ (L : List (List String)) (k : Nat), (∀ b ∈ L, b ≠ []) →
      ((L.enumFrom k).map
        (fun p => (get_channel_details retrievedAt p.2 (detOuts p.1)).2)).sum = L.length := by
  intro L
  induction L with
  | nil => intro k _; rfl
  | cons b rest ih =>
      intro k hne
      have hb : b ≠ [] := hne b (List.mem_cons_self b rest)
      have hrest : ∀ x ∈ rest, x ≠ [] := fun x hx => hne x (List.mem_cons_of_mem b hx)
      show ((get_channel_details retrievedAt b (detOuts k)).2 ::
        (rest.enumFrom (k + 1)).map
          (fun p => (get_channel_details retrievedAt p.2 (detOuts p.1)).2)).sum = rest.length + 1
      rw [List.sum_cons, get_channel_details_calls retrievedAt b (detOuts k) hb,
        ih (k + 1) hrest]
      omega

theorem enrichment_call_count_eq (retrievedAt : String) (ids : List String)
    (detOuts : Nat → DetailsOutcome) :
    enrichment_call_count retrievedAt ids detOuts = (ids.length + 49) / 50 := by
  unfold enrichment_call_count
  have h : (((chunk50 ids).enumFrom 0).map
      (fun p => (get_channel_details retrievedAt p.2 (detOuts p.1)).2)).sum
        = (chunk50 ids).length :=
    enumFrom_calls_sum retrievedAt detOuts (chunk50 ids) 0
      (fun b hb => (chunk50_mem ids b hb).2)
  rw [show (chunk50 ids).enum = (chunk50 ids).enumFrom 0 from rfl, h, chunk50_length]

theorem chunk50_map_length_120 {α : Type} (l : List α) (h : l.length = 120) :
    (chunk50 l).map List.length = [50, 50, 20] := by
  have h1 : l ≠ [] := by
    intro e; rw [e] at h; simp at h
  have hd1 : (l.drop 50).length = 70 := by simp [h]
  have h2 : l.drop 50 ≠ [] := by
    intro e; rw [e] at hd1; simp at hd1
  have hd2 : ((l.drop 50).drop 50).length = 20 := by simp [h]
  have h3 : (l.drop 50).drop 50 ≠ [] := by
    intro e; rw [e] at hd2; simp at hd2
  have hd3 : (((l.drop 50).drop 50).drop 50).length = 0 := by simp [h]
  have h4 : ((l.drop 50).drop 50).drop 50 = [] := List.length_eq_zero.mp hd3
  rw [chunk50_cons l h1, chunk50_cons _ h2, chunk50_cons _ h3, h4, chunk50_nil]
  simp only [List.map_cons, List.map_nil, List.length_take, h, hd1, hd2]
  norm_num

/-- C10: for the empty list of channel ids, `get_channel_details` returns the
empty record list and issues zero remote calls, for every possible remote
outcome: the early return on lines 153-154 of `main.py` precedes the request. -/
theorem claim_C10_empty_ids (retrievedAt : String) (outcome : DetailsOutcome) :
    get_channel_details retrievedAt [] outcome = ([], 0) := rfl

/-- C2: the enrichment loop of `collect_new_channels` slices the deduplicated
id list into batches that concatenate back to the id list, each of size at
most 50; it issues `⌈n / 50⌉ = (n + 49) / 50` remote `getDetails` calls for an
id list of size `n`; and for an id list of size 120 the batch sizes are
exactly 50, 50, 20.  The loop runs on `collectChannelIds searchOuts` (the
final conjunct anchors the definitions to `collect_new_channels`). -/
theorem claim_C2_batching (ids : List String) (retrievedAt : String)
    (detOuts : Nat → DetailsOutcome) (searchOuts : List SearchOutcome) :
    (chunk50 ids).flatten = ids
    ∧ (∀ b ∈ chunk50 ids, b.length ≤ 50)
    ∧ enrichment_call_count retrievedAt ids detOuts = (ids.length + 49) / 50
    ∧ (ids.length = 120 → (chunk50 ids).map List.length = [50, 50, 20])
    ∧ collect_new_channels retrievedAt searchOuts detOuts =
        ((chunk50 (collectChannelIds searchOuts)).enum.map
          (fun p => (get_channel_details retrievedAt p.2 (detOuts p.1)).1)).flatten :=
  ⟨chunk50_flatten ids,
   fun b hb => (chunk50_mem ids b hb).1,
   enrichment_call_count_eq retrievedAt ids detOuts,
   fun h => chunk50_map_length_120 ids h,
   rfl⟩

/-- Witness for C2 at a concrete id list of size 120. -/
theorem claim_C2_batching_witness :
    (chunk50 ((List.range 120).map (fun n => "UC" ++ toString n))).map List.length
      = [50, 50, 20] :=
  (claim_C2_batching ((List.range 120).map (fun n => "UC" ++ toString n)) "T"
    (fun _ => .err) []).2.2.2.1 (by simp)

/-- C4: the deduplicated id set accumulated over all queries has size at most
the sum of the per-query result counts, with equality exactly when no id
repeats within one query's results and no id appears in two different
queries' results. -/
theorem claim_C4_dedup_bound (outs : List SearchOutcome) :
    (collectChannelIds outs).length ≤ ((outs.map search_new_videos).map List.length).sum
    ∧ ((collectChannelIds outs).length
          = ((outs.map search_new_videos).map List.length).sum ↔
        (∀ l ∈ outs.map search_new_videos, l.Nodup) ∧
          (outs.map search_new_videos).Pairwise List.Disjoint) := by
  have hrepr : collectChannelIds outs = (outs.map search_new_videos).foldl setUpdate [] := by
    unfold collectChannelIds
    rw [List.foldl_map]
  constructor
  · rw [hrepr]
    simpa using foldl_setUpdate_le (outs.map search_new_videos) []
  · rw [hrepr]
    have h := foldl_setUpdate_eq_iff (outs.map search_new_videos) [] (by simp)
    simp only [List.length_nil, Nat.zero_add] at h
    rw [h]
    simp [List.nodup_flatten]

/-- Concrete instance of the pandas datetime parser for witnesses: a finite
table mapping ISO timestamps to seconds since 2025-11-12T00:00:00Z.  Any
other string — in particular `""`, the `snippet.get("publishedAt", "")`
default — does not parse, matching `pd.to_datetime(·, errors="coerce")`
returning `NaT`. -/
def demoParse : String → Option ℚ := fun s =>
  if s = "2025-11-12T00:00:00Z" then some 0
  else if s = "2025-12-12T00:00:00Z" then some 2592000
  else if s = "2025-12-12T00:00:01Z" then some 2592001
  else none

/-- Concrete instance of the pandas numeric parser for witnesses: `"100"`
parses, anything else (e.g. `"abc"`) is `NaN`. -/
def demoToNum : String → Option Int := fun s =>
  if s = "100" then some 100 else none

/-- A record whose age at retrieval is exactly 30.0 days. -/
def demoRecord : ChannelData :=
  { channel_id := some "UC1"
    channel_title := "My channel"
    published_at := "2025-11-12T00:00:00Z"
    subscriber_count := .strVal "100"
    video_count := .intVal 0
    view_count := .strVal "abc"
    data_retrieved_at := "2025-12-12T00:00:00Z" }

/-- C1: for every record whose two timestamp fields parse, the age filter of
`filter_and_save_channels` (line 247) retains the record iff
`(retrieved_at - created_at) / (24 * 3600) ≤ max_age_days` — a closed upper
bound, so a record aged exactly `max_age_days` is kept and any age strictly
above it is dropped. -/
theorem claim_C1_age_filter (parseDt : String → Option ℚ) (max_age_days : ℚ)
    (r : ChannelData) (p rt : ℚ) (all : List ChannelData)
    (hp : parseDt r.published_at = some p)
    (hr : parseDt r.data_retrieved_at = some rt) :
    r ∈ survivors parseDt max_age_days all ↔
      r ∈ all ∧ (rt - p) / (24 * 3600) ≤ max_age_days := by
  unfold survivors
  rw [List.mem_filter]
  simp [keepRecord, ageDays, hp, hr]

/-- Witness for C1: a record aged exactly 30.0 days is retained at the
default threshold 30.0. -/
theorem claim_C1_age_filter_witness :
    demoRecord ∈ survivors demoParse 30 [demoRecord] :=
  (claim_C1_age_filter demoParse 30 demoRecord 0 2592000 [demoRecord]
    (by decide) (by decide)).mpr ⟨List.mem_singleton.mpr rfl, by norm_num⟩

/-- C7: when no record survives the age filter — including the case of an
empty input list — nothing is written, the empty string is returned, and an
informational notice is reported; the function returns normally. -/
theorem claim_C7_no_survivors (parseDt : String → Option ℚ)
    (toNum : String → Option Int) (dateStr : String) (all : List ChannelData)
    (max_age_days : ℚ) (h : survivors parseDt max_age_days all = []) :
    (filter_and_save_channels parseDt toNum dateStr all max_age_days).written = none
    ∧ (filter_and_save_channels parseDt toNum dateStr all max_age_days).returned = ""
    ∧ (filter_and_save_channels parseDt toNum dateStr all max_age_days).notice.isSome := by
  cases all with
  | nil => exact ⟨rfl, rfl, rfl⟩
  | cons a as =>
      unfold filter_and_save_channels
      rw [h]
      exact ⟨rfl, rfl, rfl⟩

/-- Witness for C7 at the empty input list. -/
theorem claim_C7_no_survivors_witness :
    (filter_and_save_channels demoParse demoToNum "2025-12-12" [] 30).written = none
    ∧ (filter_and_save_channels demoParse demoToNum "2025-12-12" [] 30).returned = ""
    ∧ (filter_and_save_channels demoParse demoToNum "2025-12-12" [] 30).notice.isSome :=
  claim_C7_no_survivors demoParse demoToNum "2025-12-12" [] 30 rfl

/-- C9: an absent credential — `os.getenv` returning `None`, or the empty
string, which Python's `if not api_key:` (line 274) treats identically —
raises the fatal configuration error before the pipeline starts: no remote
call is issued and no output is produced.  A present (nonempty) credential
raises no configuration error. -/
theorem claim_C9_credential (parseDt : String → Option ℚ)
    (toNum : String → Option Int) (retrievedAt dateStr : String)
    (searchOuts : List SearchOutcome) (detOuts : Nat → DetailsOutcome)
    (max_age_days : ℚ) :
    ((main_run none parseDt toNum retrievedAt dateStr searchOuts detOuts
        max_age_days).configError.isSome
      ∧ (main_run none parseDt toNum retrievedAt dateStr searchOuts detOuts
          max_age_days).remoteCalls = 0
      ∧ (main_run none parseDt toNum retrievedAt dateStr searchOuts detOuts
          max_age_days).output = none)
    ∧ ∀ k : String, k ≠ "" →
        (main_run (some k) parseDt toNum retrievedAt dateStr searchOuts detOuts
          max_age_days).configError = none := by
  refine ⟨⟨rfl, rfl, rfl⟩, fun k hk => ?_⟩
  simp only [main_run]
  rw [if_neg hk]

/-- Witness for C9 at a concrete nonempty credential. -/
theorem claim_C9_credential_witness :
    (main_run (some "AIzaDemoKey") demoParse demoToNum "2025-12-12T00:00:00Z"
      "2025-12-12" [] (fun _ => .err) 30).configError = none :=
  (claim_C9_credential demoParse demoToNum "2025-12-12T00:00:00Z" "2025-12-12"
    [] (fun _ => .err) 30).2 "AIzaDemoKey" (by decide)

/-- C5: a statistics field absent from the response item becomes the integer
0 in the written row (the `stats.get(key, 0)` default passes the numeric
coercion unchanged), and a present but non-numeric statistics string is
coerced to 0 by `pd.to_numeric(errors="coerce").fillna(0)`; neither case
raises, and the written count columns are integers by construction
(`Row.subscriber_count`, `Row.video_count`, `Row.view_count : Int`). -/
theorem claim_C5_stat_defaults (parseDt : String → Option ℚ)
    (toNum : String → Option Int) (retrievedAt : String) (it : RawItem) :
    (it.subscriberCount = none →
      (mkRow parseDt toNum (extractItem retrievedAt it)).subscriber_count = 0)
    ∧ (it.videoCount = none →
      (mkRow parseDt toNum (extractItem retrievedAt it)).video_count = 0)
    ∧ (it.viewCount = none →
      (mkRow parseDt toNum (extractItem retrievedAt it)).view_count = 0)
    ∧ (∀ s, it.subscriberCount = some s → toNum s = none →
      (mkRow parseDt toNum (extractItem retrievedAt it)).subscriber_count = 0)
    ∧ (∀ s, it.videoCount = some s → toNum s = none →
      (mkRow parseDt toNum (extractItem retrievedAt it)).video_count = 0)
    ∧ (∀ s, it.viewCount = some s → toNum s = none →
      (mkRow parseDt toNum (extractItem retrievedAt it)).view_count = 0) := by
  refine ⟨fun h => ?_, fun h => ?_, fun h => ?_,
    fun s h h2 => ?_, fun s h h2 => ?_, fun s h h2 => ?_⟩ <;>
    simp [mkRow, extractItem, getStat, toNumericCoerce, h]
  · rw [h2]; rfl
  · rw [h2]; rfl
  · rw [h2]; rfl

/-- An item with a missing subscriber count and a non-numeric view count. -/
def demoItemStats : RawItem :=
  { id := some "UC4"
    title := some "T"
    publishedAt := some "2025-12-12T00:00:00Z"
    subscriberCount := none
    videoCount := some "100"
    viewCount := some "abc" }

/-- Witness for C5: the missing subscriber count and the non-numeric view
count string `"abc"` both yield 0 in the written row. -/
theorem claim_C5_stat_defaults_witness :
    (mkRow demoParse demoToNum
      (extractItem "2025-12-12T00:00:00Z" demoItemStats)).subscriber_count = 0
    ∧ (mkRow demoParse demoToNum
      (extractItem "2025-12-12T00:00:00Z" demoItemStats)).view_count = 0 :=
  ⟨(claim_C5_stat_defaults demoParse demoToNum "2025-12-12T00:00:00Z"
      demoItemStats).1 rfl,
   (claim_C5_stat_defaults demoParse demoToNum "2025-12-12T00:00:00Z"
      demoItemStats).2.2.2.2.2 "abc" rfl (by decide)⟩

theorem demo_keep : keepRecord demoParse 30 demoRecord = true := by
  have h1 : demoParse demoRecord.published_at = some 0 := by decide
  have h2 : demoParse demoRecord.data_retrieved_at = some 2592000 := by decide
  simp only [keepRecord, h1, h2, ageDays]
  norm_num

theorem demo_survivors : survivors demoParse 30 [demoRecord] = [demoRecord] := by
  simp [survivors, demo_keep]

theorem collect_append_err (pre post : List SearchOutcome) :
    collectChannelIds (pre ++ .err :: post) = collectChannelIds (pre ++ post) := by
  unfold collectChannelIds
  rw [List.foldl_append, List.foldl_append, List.foldl_cons]
  rfl

theorem written_isSome_of_survivors_ne (parseDt : String → Option ℚ)
    (toNum : String → Option Int) (dateStr : String) (all : List ChannelData)
    (max_age_days : ℚ) (h : survivors parseDt max_age_days all ≠ []) :
    (filter_and_save_channels parseDt toNum dateStr all max_age_days).written.isSome := by
  cases all with
  | nil => exact absurd rfl h
  | cons a as =>
      unfold filter_and_save_channels
      cases hs : survivors parseDt max_age_days (a :: as) with
      | nil => exact absurd hs h
      | cons r rs => rfl

/-- C6: a failing `search.list` call contributes the empty id list, the
accumulated id set is exactly what the successful queries alone would give,
the whole run computes the same output as a run without the failing query,
and when any channel qualifies the run still writes a file.  A single remote
failure never aborts the run (the exception is caught on lines 123-128 of
`main.py`). -/
theorem claim_C6_partial_failure (parseDt : String → Option ℚ)
    (toNum : String → Option Int) (retrievedAt dateStr : String)
    (pre post : List SearchOutcome) (detOuts : Nat → DetailsOutcome)
    (max_age_days : ℚ) :
    search_new_videos .err = []
    ∧ collectChannelIds (pre ++ .err :: post) = collectChannelIds (pre ++ post)
    ∧ run_pipeline parseDt toNum retrievedAt dateStr (pre ++ .err :: post)
        detOuts max_age_days
      = run_pipeline parseDt toNum retrievedAt dateStr (pre ++ post)
        detOuts max_age_days
    ∧ (survivors parseDt max_age_days
          (collect_new_channels retrievedAt (pre ++ .err :: post) detOuts) ≠ [] →
        (run_pipeline parseDt toNum retrievedAt dateStr (pre ++ .err :: post)
          detOuts max_age_days).written.isSome) := by
  have hc := collect_append_err pre post
  have hrun : run_pipeline parseDt toNum retrievedAt dateStr (pre ++ .err :: post)
      detOuts max_age_days
      = run_pipeline parseDt toNum retrievedAt dateStr (pre ++ post)
        detOuts max_age_days := by
    unfold run_pipeline collect_new_channels
    rw [hc]
  exact ⟨rfl, hc, hrun,
    fun h => written_isSome_of_survivors_ne parseDt toNum dateStr _ max_age_days h⟩

/-- A `channels.list` response item whose extraction yields `demoRecord`. -/
def demoItemGood : RawItem :=
  { id := some "UC1"
    title := some "My channel"
    publishedAt := some "2025-11-12T00:00:00Z"
    subscriberCount := some "100"
    videoCount := none
    viewCount := some "abc" }

/-- Witness for C6: one successful query followed by one failing query, with
one qualifying channel; the run writes a file. -/
theorem claim_C6_partial_failure_witness :
    (run_pipeline demoParse demoToNum "2025-12-12T00:00:00Z" "2025-12-12"
      ([SearchOutcome.ok [⟨some "UC1"⟩]] ++ .err :: [])
      (fun _ => .ok [demoItemGood]) 30).written.isSome :=
  (claim_C6_partial_failure demoParse demoToNum "2025-12-12T00:00:00Z" "2025-12-12"
    [SearchOutcome.ok [⟨some "UC1"⟩]] [] (fun _ => .ok [demoItemGood]) 30).2.2.2
    (by
      have hrec : collect_new_channels "2025-12-12T00:00:00Z"
          ([SearchOutcome.ok [⟨some "UC1"⟩]] ++ .err :: [])
          (fun _ => .ok [demoItemGood]) = [demoRecord] := rfl
      rw [hrec, demo_survivors]
      exact List.cons_ne_nil _ _)

/-- C8 counterexample: on a run with one surviving record, the written header
is the ten-column list `csvColumns` — the seven record fields plus the three
computed columns `published_at_dt`, `data_retrieved_at_dt` and
`channel_age_days` added on lines 242-245 and never dropped before
`to_csv` — not the eight columns (record fields plus the single age column)
the claim asserts. -/
theorem claim_C8_counterexample :
    ((filter_and_save_channels demoParse demoToNum "2025-12-12"
        [demoRecord] 30).written.map (fun w => w.2.1)) = some csvColumns
    ∧ csvColumns ≠ ["channel_id", "channel_title", "published_at",
        "subscriber_count", "video_count", "view_count", "data_retrieved_at",
        "channel_age_days"] := by
  constructor
  · unfold filter_and_save_channels
    rw [demo_survivors]
    rfl
  · decide

/-- C8 amended: when at least one record survives, the written file is named
`new_youtube_channels_<dateStr>.csv` for the current UTC date string, and its
columns are the seven record fields plus the three computed columns
(parsed `published_at_dt`, parsed `data_retrieved_at_dt`, and
`channel_age_days`), one row per surviving record. -/
theorem claim_C8_output_format (parseDt : String → Option ℚ)
    (toNum : String → Option Int) (dateStr : String) (all : List ChannelData)
    (max_age_days : ℚ) (r : ChannelData) (rs : List ChannelData)
    (h : survivors parseDt max_age_days all = r :: rs) :
    (filter_and_save_channels parseDt toNum dateStr all max_age_days).written
      = some ("new_youtube_channels_" ++ dateStr ++ ".csv", csvColumns,
          (r :: rs).map (mkRow parseDt toNum))
    ∧ (filter_and_save_channels parseDt toNum dateStr all max_age_days).returned
      = "new_youtube_channels_" ++ dateStr ++ ".csv" := by
  cases all with
  | nil => simp [survivors] at h
  | cons a as =>
      unfold filter_and_save_channels
      rw [h]
      exact ⟨rfl, rfl⟩

/-- Witness for C8 amended at one concrete surviving record. -/
theorem claim_C8_output_format_witness :
    (filter_and_save_channels demoParse demoToNum "2025-12-12"
        [demoRecord] 30).written
      = some ("new_youtube_channels_2025-12-12.csv", csvColumns,
          [mkRow demoParse demoToNum demoRecord])
    ∧ (filter_and_save_channels demoParse demoToNum "2025-12-12"
        [demoRecord] 30).returned = "new_youtube_channels_2025-12-12.csv" := by
  have h := claim_C8_output_format demoParse demoToNum "2025-12-12"
    [demoRecord] 30 demoRecord [] demo_survivors
  simpa using h

/-- An item whose only defect is a missing creation timestamp. -/
def demoItemNoDate : RawItem :=
  { id := some "UC2"
    title := some "T2"
    publishedAt := none
    subscriberCount := some "100"
    videoCount := some "100"
    viewCount := some "100" }

/-- The same item with the creation timestamp present. -/
def demoItemLateDate : RawItem :=
  { demoItemNoDate with publishedAt := some "2025-12-12T00:00:00Z" }

/-- C3 counterexample: an item lacking only its creation timestamp produces a
record that is never written — the `""` default does not parse
(`pd.to_datetime("", errors="coerce")` is `NaT`), the age is `NaN`, and the
filter drops the row — while the identical item with the timestamp present is
written.  So a missing field can exclude a record from the output. -/
theorem claim_C3_counterexample :
    (filter_and_save_channels demoParse demoToNum "2025-12-12"
      [extractItem "2025-12-12T00:00:00Z" demoItemNoDate] 30).written = none
    ∧ (filter_and_save_channels demoParse demoToNum "2025-12-12"
      [extractItem "2025-12-12T00:00:00Z" demoItemLateDate] 30).written.isSome := by
  constructor
  · rfl
  · have hkeep : keepRecord demoParse 30
        (extractItem "2025-12-12T00:00:00Z" demoItemLateDate) = true := by
      have h : ((2592000 : ℚ) - 2592000) / (24 * 3600) ≤ 30 := by norm_num
      simp [keepRecord, ageDays, extractItem, demoItemLateDate, demoItemNoDate,
        demoParse, h]
    have hs : survivors demoParse 30
        [extractItem "2025-12-12T00:00:00Z" demoItemLateDate]
        = [extractItem "2025-12-12T00:00:00Z" demoItemLateDate] := by
      simp [survivors, hkeep]
    unfold filter_and_save_channels
    rw [hs]
    rfl

/-- C3 amended: missing text and count fields are tolerated per-field with
safe defaults (empty string for text, zero for counts), never raise, and do
not by themselves exclude the record: an item missing its title and all three
statistics is still retained whenever its timestamps parse and its age is
within the threshold, and its row carries the defaults.  The one exception
the counterexample forces: a record whose creation timestamp is missing gets
the unparseable `""` default, its age is `NaN`, and the filter always drops
it. -/
theorem claim_C3_defaults (parseDt : String → Option ℚ)
    (toNum : String → Option Int) (retrievedAt : String) (max_age_days : ℚ)
    (it : RawItem) (p rt : ℚ)
    (htitle : it.title = none) (hsubs : it.subscriberCount = none)
    (hvid : it.videoCount = none) (hview : it.viewCount = none)
    (hp : parseDt (it.publishedAt.getD "") = some p)
    (hr : parseDt retrievedAt = some rt)
    (hage : (rt - p) / (24 * 3600) ≤ max_age_days)
    (hempty : parseDt "" = none) :
    (extractItem retrievedAt it ∈
        survivors parseDt max_age_days [extractItem retrievedAt it]
      ∧ (mkRow parseDt toNum (extractItem retrievedAt it)).channel_title = ""
      ∧ (mkRow parseDt toNum (extractItem retrievedAt it)).subscriber_count = 0
      ∧ (mkRow parseDt toNum (extractItem retrievedAt it)).video_count = 0
      ∧ (mkRow parseDt toNum (extractItem retrievedAt it)).view_count = 0)
    ∧ (∀ it2 : RawItem, it2.publishedAt = none →
        survivors parseDt max_age_days [extractItem retrievedAt it2] = []) := by
  constructor
  · have hkeep : keepRecord parseDt max_age_days (extractItem retrievedAt it) = true := by
      simp [keepRecord, ageDays, extractItem, hp, hr, hage]
    refine ⟨by simp [survivors, hkeep], ?_, ?_, ?_, ?_⟩
    · simp [mkRow, extractItem, htitle]
    · simp [mkRow, extractItem, hsubs, getStat, toNumericCoerce]
    · simp [mkRow, extractItem, hvid, getStat, toNumericCoerce]
    · simp [mkRow, extractItem, hview, getStat, toNumericCoerce]
  · intro it2 h2
    have hkeep : keepRecord parseDt max_age_days (extractItem retrievedAt it2) = false := by
      simp [keepRecord, ageDays, extractItem, h2, hempty]
    simp [survivors, hkeep]

/-- An item missing its title and all three statistics fields, with a valid
creation timestamp. -/
def demoItemBare : RawItem :=
  { id := some "UC3"
    title := none
    publishedAt := some "2025-12-12T00:00:00Z"
    subscriberCount := none
    videoCount := none
    viewCount := none }

/-- Witness for C3 amended: the all-defaults record is retained and written
with empty title and zero counts. -/
theorem claim_C3_defaults_witness :
    extractItem "2025-12-12T00:00:00Z" demoItemBare ∈
      survivors demoParse 30 [extractItem "2025-12-12T00:00:00Z" demoItemBare]
    ∧ (mkRow demoParse demoToNum
        (extractItem "2025-12-12T00:00:00Z" demoItemBare)).channel_title = ""
    ∧ (mkRow demoParse demoToNum
        (extractItem "2025-12-12T00:00:00Z" demoItemBare)).subscriber_count = 0 := by
  have h := claim_C3_defaults demoParse demoToNum "2025-12-12T00:00:00Z" 30
    demoItemBare 2592000 2592000 rfl rfl rfl rfl (by decide) (by decide)
    (by norm_num) (by decide)
  exact ⟨h.1.1, h.1.2.1, h.1.2.2.1⟩

end YTQuery
